import Mathlib

/-!
Verification of the feeds-and-speeds calculation core.

The development shallowly embeds the numeric calculation layer of the
repository: the per-material chipload lookup table with linear
interpolation/extrapolation (`suggest_chipload`, from
src/calculations.py), the feedrate formula with its trochoidal
correction (`calculate_feedrate`, from src/calculations.py), the
construction-time validation of cutting parameters (from
src/data_models.py), the per-flute/total chipload conversions (from
src/types.py) and the feedrate-maximization linear scan (from
src/event_handlers.py).

Numbers are embedded exactly: parameters are rationals, and the one
irrational operation of the source (math.sqrt in the trochoidal
correction) is `Real.sqrt` on the rational radicand.
-/

namespace FeedsSpeeds

/-- The three built-in material identifiers
(src/calculations.py, `MaterialProperties.get_default_materials`). -/
inductive Material where
  | softPlastics
  | softWoodHardPlastics
  | hardWoodAluminium
deriving DecidableEq

/-- One material's row of the chipload table: each built-in material maps
exactly three reference diameters d0 < d1 < d2 to (min, max)
chipload-per-flute pairs r0, r1, r2. -/
structure MaterialTable where
  d0 : ℚ
  d1 : ℚ
  d2 : ℚ
  r0 : ℚ × ℚ
  r1 : ℚ × ℚ
  r2 : ℚ × ℚ

/-- The default chipload table
(src/calculations.py, `MaterialProperties.get_default_materials`):
reference diameters 1.5, 3.175 and 6 mm with the tabulated
(min, max) chipload pairs, written as exact rationals. -/
def chipload_ranges : Material → MaterialTable
  | .softPlastics =>
      ⟨3/2, 127/40, 6, (1/20, 3/40), (1/20, 13/100), (1/20, 127/500)⟩
  | .softWoodHardPlastics =>
      ⟨3/2, 127/40, 6, (1/40, 1/25), (1/40, 63/1000), (1/40, 127/1000)⟩
  | .hardWoodAluminium =>
      ⟨3/2, 127/40, 6, (13/1000, 13/1000), (13/1000, 1/40), (1/40, 1/20)⟩

/-- Linear interpolation helper
(src/calculations.py, `ChiploadCalculator._interpolate`). -/
def interpolate (x x1 y1 x2 y2 : ℚ) : ℚ :=
  y1 + (x - x1) * (y2 - y1) / (x2 - x1)

/-- Chipload suggestion (src/calculations.py,
`ChiploadCalculator.suggest_chipload`), specialized to the built-in
table where each material has exactly the three sorted reference
diameters d0 < d1 < d2.  The source computes
lower_diameter = max (d <= D) and upper_diameter = min (d >= D) over the
sorted keys; over three keys with d0 < D < d2 that bracketing is d0..d1
when D < d1, the degenerate pair d1..d1 when D = d1, and d1..d2 when
D > d1, which is the case split written here. -/
def suggest_chipload (tool_diameter : ℚ) (m : Material) : ℚ × ℚ :=
  let t := chipload_ranges m
  if tool_diameter ≤ t.d0 then
    t.r0
  else if tool_diameter ≥ t.d2 then
    let slope_lower := (t.r2.1 - t.r1.1) / (t.d2 - t.d1)
    let slope_upper := (t.r2.2 - t.r1.2) / (t.d2 - t.d1)
    let extrapolated_lower := t.r2.1 + slope_lower * (tool_diameter - t.d2)
    let extrapolated_upper := t.r2.2 + slope_upper * (tool_diameter - t.d2)
    (max extrapolated_lower (t.r0.1), extrapolated_upper)
  else if tool_diameter < t.d1 then
    (interpolate tool_diameter t.d0 t.r0.1 t.d1 t.r1.1,
     interpolate tool_diameter t.d0 t.r0.2 t.d1 t.r1.2)
  else if tool_diameter = t.d1 then
    t.r1
  else
    (interpolate tool_diameter t.d1 t.r1.1 t.d2 t.r2.1,
     interpolate tool_diameter t.d1 t.r1.2 t.d2 t.r2.2)

/-- The smallest tabulated lower chipload bound of a material. -/
def min_lower_bound (m : Material) : ℚ :=
  min (chipload_ranges m).r0.1 (min (chipload_ranges m).r1.1 (chipload_ranges m).r2.1)

theorem interpolate_ge_left (x x1 y1 x2 y2 : ℚ) (hx1 : x1 ≤ x) (h12 : x1 < x2)
    (hy : y1 ≤ y2) : y1 ≤ interpolate x x1 y1 x2 y2 := by
  have hc : (0:ℚ) < x2 - x1 := by linarith
  have h : 0 ≤ (x - x1) * (y2 - y1) / (x2 - x1) :=
    div_nonneg (mul_nonneg (by linarith) (by linarith)) (le_of_lt hc)
  unfold interpolate
  linarith

theorem interpolate_le_right (x x1 y1 x2 y2 : ℚ) (hx2 : x ≤ x2) (h12 : x1 < x2)
    (hy : y1 ≤ y2) : interpolate x x1 y1 x2 y2 ≤ y2 := by
  have hc : (0:ℚ) < x2 - x1 := by linarith
  have expand : y2 - interpolate x x1 y1 x2 y2 = (y2 - y1) * (x2 - x) / (x2 - x1) := by
    unfold interpolate
    field_simp
    ring
  have h : 0 ≤ (y2 - y1) * (x2 - x) / (x2 - x1) :=
    div_nonneg (mul_nonneg (by linarith) (by linarith)) (le_of_lt hc)
  linarith

theorem interpolate_mono (x x1 y1 z1 x2 y2 z2 : ℚ) (hx1 : x1 ≤ x) (hx2 : x ≤ x2)
    (h12 : x1 < x2) (h1 : y1 ≤ z1) (h2 : y2 ≤ z2) :
    interpolate x x1 y1 x2 y2 ≤ interpolate x x1 z1 x2 z2 := by
  have hc : (0:ℚ) < x2 - x1 := by linarith
  have expand : interpolate x x1 z1 x2 z2 - interpolate x x1 y1 x2 y2
      = ((x2 - x) * (z1 - y1) + (x - x1) * (z2 - y2)) / (x2 - x1) := by
    unfold interpolate
    field_simp
    ring
  have ha : (0:ℚ) ≤ (x2 - x) * (z1 - y1) := mul_nonneg (by linarith) (by linarith)
  have hb : (0:ℚ) ≤ (x - x1) * (z2 - y2) := mul_nonneg (by linarith) (by linarith)
  have h : 0 ≤ ((x2 - x) * (z1 - y1) + (x - x1) * (z2 - y2)) / (x2 - x1) :=
    div_nonneg (by linarith) (le_of_lt hc)
  linarith

/-- Branch characterization: for a diameter strictly between the first two
references, `suggest_chipload` interpolates both bounds between them. -/
theorem suggest_eq_interp_low (m : Material) (D : ℚ)
    (h0 : (chipload_ranges m).d0 < D) (h1 : D < (chipload_ranges m).d1) :
    suggest_chipload D m =
      (interpolate D (chipload_ranges m).d0 (chipload_ranges m).r0.1
         (chipload_ranges m).d1 (chipload_ranges m).r1.1,
       interpolate D (chipload_ranges m).d0 (chipload_ranges m).r0.2
         (chipload_ranges m).d1 (chipload_ranges m).r1.2) := by
  cases m <;>
  · simp only [chipload_ranges] at h0 h1 ⊢
    unfold suggest_chipload
    simp only [chipload_ranges]
    split_ifs <;> first
      | rfl
      | (exfalso; norm_num at *; linarith)

/-- Branch characterization: for a diameter strictly between the last two
references, `suggest_chipload` interpolates both bounds between them. -/
theorem suggest_eq_interp_high (m : Material) (D : ℚ)
    (h0 : (chipload_ranges m).d1 < D) (h1 : D < (chipload_ranges m).d2) :
    suggest_chipload D m =
      (interpolate D (chipload_ranges m).d1 (chipload_ranges m).r1.1
         (chipload_ranges m).d2 (chipload_ranges m).r2.1,
       interpolate D (chipload_ranges m).d1 (chipload_ranges m).r1.2
         (chipload_ranges m).d2 (chipload_ranges m).r2.2) := by
  cases m <;>
  · simp only [chipload_ranges] at h0 h1 ⊢
    unfold suggest_chipload
    simp only [chipload_ranges]
    split_ifs <;> first
      | rfl
      | (exfalso; norm_num at *; linarith)

/-- Branch characterization: at or beyond the largest reference diameter,
`suggest_chipload` extrapolates both bounds with the slope between the last
two reference points, clamping the lower bound to the first tabulated lower
bound. -/
theorem suggest_eq_extrapolate (m : Material) (D : ℚ)
    (h : (chipload_ranges m).d2 ≤ D) :
    suggest_chipload D m =
      (max ((chipload_ranges m).r2.1 +
          ((chipload_ranges m).r2.1 - (chipload_ranges m).r1.1) /
            ((chipload_ranges m).d2 - (chipload_ranges m).d1) *
            (D - (chipload_ranges m).d2))
         ((chipload_ranges m).r0.1),
       (chipload_ranges m).r2.2 +
          ((chipload_ranges m).r2.2 - (chipload_ranges m).r1.2) /
            ((chipload_ranges m).d2 - (chipload_ranges m).d1) *
            (D - (chipload_ranges m).d2)) := by
  cases m <;>
  · simp only [chipload_ranges] at h ⊢
    unfold suggest_chipload
    simp only [chipload_ranges]
    split_ifs <;> first
      | rfl
      | (exfalso; norm_num at *; linarith)

/-- C4: at every tabulated reference diameter of every built-in material,
`suggest_chipload` returns exactly the stored (min, max) pair. -/
theorem suggest_chipload_at_references (m : Material) :
    suggest_chipload (chipload_ranges m).d0 m = (chipload_ranges m).r0 ∧
    suggest_chipload (chipload_ranges m).d1 m = (chipload_ranges m).r1 ∧
    suggest_chipload (chipload_ranges m).d2 m = (chipload_ranges m).r2 := by
  cases m <;>
    exact ⟨by norm_num [suggest_chipload, chipload_ranges, interpolate],
           by norm_num [suggest_chipload, chipload_ranges, interpolate],
           by norm_num [suggest_chipload, chipload_ranges, interpolate]⟩

/-- Branch characterization: at or below the smallest reference diameter,
`suggest_chipload` returns the first tabulated range verbatim. -/
theorem suggest_eq_low (m : Material) (D : ℚ) (h : D ≤ (chipload_ranges m).d0) :
    suggest_chipload D m = (chipload_ranges m).r0 := by
  unfold suggest_chipload
  rw [if_pos h]

/-- Branch characterization: exactly at the middle reference diameter,
`suggest_chipload` returns the middle tabulated range verbatim. -/
theorem suggest_eq_mid (m : Material) (D : ℚ) (h : D = (chipload_ranges m).d1) :
    suggest_chipload D m = (chipload_ranges m).r1 := by
  subst h
  cases m <;>
  · unfold suggest_chipload
    simp only [chipload_ranges]
    split_ifs <;> first
      | rfl
      | (exfalso; norm_num at *)

/-- C5: for every built-in material and tool diameter at or beyond the
largest reference diameter, `suggest_chipload` extrapolates both bounds
with the slope between the last two reference points (the lower bound
clamped to the floor), and the returned lower bound is at least the
material's smallest tabulated lower bound. -/
theorem suggest_chipload_extrapolation_floor (m : Material) (D : ℚ)
    (h : (chipload_ranges m).d2 ≤ D) :
    suggest_chipload D m =
      (max ((chipload_ranges m).r2.1 +
          ((chipload_ranges m).r2.1 - (chipload_ranges m).r1.1) /
            ((chipload_ranges m).d2 - (chipload_ranges m).d1) *
            (D - (chipload_ranges m).d2))
         ((chipload_ranges m).r0.1),
       (chipload_ranges m).r2.2 +
          ((chipload_ranges m).r2.2 - (chipload_ranges m).r1.2) /
            ((chipload_ranges m).d2 - (chipload_ranges m).d1) *
            (D - (chipload_ranges m).d2)) ∧
    min_lower_bound m ≤ (suggest_chipload D m).1 := by
  refine ⟨suggest_eq_extrapolate m D h, ?_⟩
  rw [suggest_eq_extrapolate m D h]
  have hfloor : min_lower_bound m ≤ (chipload_ranges m).r0.1 := by
    cases m <;> norm_num [min_lower_bound, chipload_ranges]
  exact le_trans hfloor (le_trans (le_max_right _ _) (le_of_eq rfl))

/-- Witness for C5 at the spec's concrete scenario: diameter 10 for
hard wood and aluminium is beyond the largest reference diameter 6, and
the suggested lower bound respects the tabulated floor. -/
theorem suggest_chipload_extrapolation_floor_witness :
    (chipload_ranges Material.hardWoodAluminium).d2 ≤ 10 ∧
    min_lower_bound Material.hardWoodAluminium ≤
      (suggest_chipload 10 Material.hardWoodAluminium).1 :=
  ⟨by norm_num [chipload_ranges],
   (suggest_chipload_extrapolation_floor Material.hardWoodAluminium 10
      (by norm_num [chipload_ranges])).2⟩

/-- C6: for a tool diameter strictly between two adjacent reference
diameters, each suggested bound lies between the corresponding bounds
tabulated at those two references. -/
theorem suggest_chipload_interpolation_between (m : Material) (D : ℚ) :
    ((chipload_ranges m).d0 < D ∧ D < (chipload_ranges m).d1 →
       min (chipload_ranges m).r0.1 (chipload_ranges m).r1.1 ≤ (suggest_chipload D m).1 ∧
       (suggest_chipload D m).1 ≤ max (chipload_ranges m).r0.1 (chipload_ranges m).r1.1 ∧
       min (chipload_ranges m).r0.2 (chipload_ranges m).r1.2 ≤ (suggest_chipload D m).2 ∧
       (suggest_chipload D m).2 ≤ max (chipload_ranges m).r0.2 (chipload_ranges m).r1.2) ∧
    ((chipload_ranges m).d1 < D ∧ D < (chipload_ranges m).d2 →
       min (chipload_ranges m).r1.1 (chipload_ranges m).r2.1 ≤ (suggest_chipload D m).1 ∧
       (suggest_chipload D m).1 ≤ max (chipload_ranges m).r1.1 (chipload_ranges m).r2.1 ∧
       min (chipload_ranges m).r1.2 (chipload_ranges m).r2.2 ≤ (suggest_chipload D m).2 ∧
       (suggest_chipload D m).2 ≤ max (chipload_ranges m).r1.2 (chipload_ranges m).r2.2) := by
  constructor
  · rintro ⟨h0, h1⟩
    rw [suggest_eq_interp_low m D h0 h1]
    have hd : (chipload_ranges m).d0 < (chipload_ranges m).d1 := lt_trans h0 h1
    have hy1 : (chipload_ranges m).r0.1 ≤ (chipload_ranges m).r1.1 := by
      cases m <;> norm_num [chipload_ranges]
    have hy2 : (chipload_ranges m).r0.2 ≤ (chipload_ranges m).r1.2 := by
      cases m <;> norm_num [chipload_ranges]
    rw [min_eq_left hy1, max_eq_right hy1, min_eq_left hy2, max_eq_right hy2]
    exact ⟨interpolate_ge_left D _ _ _ _ (le_of_lt h0) hd hy1,
           interpolate_le_right D _ _ _ _ (le_of_lt h1) hd hy1,
           interpolate_ge_left D _ _ _ _ (le_of_lt h0) hd hy2,
           interpolate_le_right D _ _ _ _ (le_of_lt h1) hd hy2⟩
  · rintro ⟨h0, h1⟩
    rw [suggest_eq_interp_high m D h0 h1]
    have hd : (chipload_ranges m).d1 < (chipload_ranges m).d2 := lt_trans h0 h1
    have hy1 : (chipload_ranges m).r1.1 ≤ (chipload_ranges m).r2.1 := by
      cases m <;> norm_num [chipload_ranges]
    have hy2 : (chipload_ranges m).r1.2 ≤ (chipload_ranges m).r2.2 := by
      cases m <;> norm_num [chipload_ranges]
    rw [min_eq_left hy1, max_eq_right hy1, min_eq_left hy2, max_eq_right hy2]
    exact ⟨interpolate_ge_left D _ _ _ _ (le_of_lt h0) hd hy1,
           interpolate_le_right D _ _ _ _ (le_of_lt h1) hd hy1,
           interpolate_ge_left D _ _ _ _ (le_of_lt h0) hd hy2,
           interpolate_le_right D _ _ _ _ (le_of_lt h1) hd hy2⟩

/-- Witness for C6: diameter 2 lies strictly between the first two
reference diameters of the soft-plastics table, and both suggested bounds
lie between the tabulated bounds there. -/
theorem suggest_chipload_interpolation_between_witness :
    ((chipload_ranges Material.softPlastics).d0 < 2 ∧
       (2:ℚ) < (chipload_ranges Material.softPlastics).d1) ∧
    (min (chipload_ranges Material.softPlastics).r0.1
        (chipload_ranges Material.softPlastics).r1.1 ≤
        (suggest_chipload 2 Material.softPlastics).1 ∧
     (suggest_chipload 2 Material.softPlastics).1 ≤
        max (chipload_ranges Material.softPlastics).r0.1
          (chipload_ranges Material.softPlastics).r1.1 ∧
     min (chipload_ranges Material.softPlastics).r0.2
        (chipload_ranges Material.softPlastics).r1.2 ≤
        (suggest_chipload 2 Material.softPlastics).2 ∧
     (suggest_chipload 2 Material.softPlastics).2 ≤
        max (chipload_ranges Material.softPlastics).r0.2
          (chipload_ranges Material.softPlastics).r1.2) :=
  ⟨⟨by norm_num [chipload_ranges], by norm_num [chipload_ranges]⟩,
   (suggest_chipload_interpolation_between Material.softPlastics 2).1
     ⟨by norm_num [chipload_ranges], by norm_num [chipload_ranges]⟩⟩

/-- C10: for every built-in material and positive tool diameter, the
suggested chipload pair is ordered: lower bound at most upper bound, in
all branches of the lookup (clamp-low, interpolation, and extrapolation
with the floor clamp). -/
theorem suggest_chipload_lower_le_upper (m : Material) (D : ℚ) (hD : 0 < D) :
    (suggest_chipload D m).1 ≤ (suggest_chipload D m).2 := by
  rcases le_or_lt D (chipload_ranges m).d0 with hle | hgt
  · rw [suggest_eq_low m D hle]
    cases m <;> norm_num [chipload_ranges]
  · rcases lt_trichotomy D (chipload_ranges m).d1 with h1 | h1 | h1
    · rw [suggest_eq_interp_low m D hgt h1]
      exact interpolate_mono D _ _ _ _ _ _ (le_of_lt hgt) (le_of_lt h1)
        (lt_trans hgt h1)
        (by cases m <;> norm_num [chipload_ranges])
        (by cases m <;> norm_num [chipload_ranges])
    · rw [suggest_eq_mid m D h1]
      cases m <;> norm_num [chipload_ranges]
    · rcases lt_or_le D (chipload_ranges m).d2 with h2 | h2
      · rw [suggest_eq_interp_high m D h1 h2]
        exact interpolate_mono D _ _ _ _ _ _ (le_of_lt h1) (le_of_lt h2)
          (lt_trans h1 h2)
          (by cases m <;> norm_num [chipload_ranges])
          (by cases m <;> norm_num [chipload_ranges])
      · rw [suggest_eq_extrapolate m D h2]
        cases m <;>
        · simp only [chipload_ranges] at h2 ⊢
          rw [max_le_iff]
          constructor <;> nlinarith

/-- Witness for C10 at a concrete positive diameter. -/
theorem suggest_chipload_lower_le_upper_witness :
    (0:ℚ) < 2 ∧
    (suggest_chipload 2 Material.softPlastics).1 ≤
      (suggest_chipload 2 Material.softPlastics).2 :=
  ⟨by norm_num, suggest_chipload_lower_le_upper Material.softPlastics 2 (by norm_num)⟩

/-- Cutting parameters (src/calculations.py, `CuttingParameters`):
a plain record of the six numeric inputs; that dataclass has no
constructor-time validation hook. -/
structure CuttingParameters where
  flutes : ℚ
  tool_diameter : ℚ
  rpm : ℚ
  width_of_cut : ℚ
  depth_of_cut : ℚ
  chipload : ℚ

/-- Parameter validation (src/calculations.py, `CuttingParameters.validate`):
returns the first failing check's message, or none when all pass, in the
source's order. -/
def CuttingParameters.validate (p : CuttingParameters) : Option String :=
  if p.flutes ≤ 0 then some "Number of flutes must be positive"
  else if p.tool_diameter ≤ 0 then some "Tool diameter must be positive"
  else if p.rpm ≤ 0 then some "RPM must be positive"
  else if p.width_of_cut ≤ 0 then some "Width of cut must be positive"
  else if p.depth_of_cut ≤ 0 then some "Depth of cut must be positive"
  else if p.chipload ≤ 0 then some "Chipload must be positive"
  else if p.width_of_cut > p.tool_diameter then
    some "Width of cut cannot exceed tool diameter"
  else none

/-- The feedrate branch formula of src/calculations.py,
`ChiploadCalculator.calculate_feedrate` lines 103-110: the base feedrate
rpm * chipload * flutes, divided in the reduced-engagement branch by
sqrt(1 - (1 - 2 * woc / tool_diameter)^2); the rational radicand is
evaluated exactly and passed to the real square root. -/
noncomputable def feedrate_formula (flutes rpm chipload woc tool_diameter : ℚ) : ℝ :=
  let base : ℝ := ((rpm * chipload * flutes : ℚ) : ℝ)
  if woc > tool_diameter / 2 then base
  else base / Real.sqrt ((1 - (1 - 2 * woc / tool_diameter) ^ 2 : ℚ) : ℝ)

/-- Feedrate calculation (src/calculations.py,
`ChiploadCalculator.calculate_feedrate`): raise the validation message as
an error, otherwise return the branch formula. -/
noncomputable def calculate_feedrate (p : CuttingParameters) : Except String ℝ :=
  match p.validate with
  | some err => Except.error err
  | none =>
      Except.ok (feedrate_formula p.flutes p.rpm p.chipload
        p.width_of_cut p.tool_diameter)

theorem validate_none_iff (p : CuttingParameters) :
    p.validate = none ↔
      0 < p.flutes ∧ 0 < p.tool_diameter ∧ 0 < p.rpm ∧ 0 < p.width_of_cut ∧
      0 < p.depth_of_cut ∧ 0 < p.chipload ∧
      p.width_of_cut ≤ p.tool_diameter := by
  unfold CuttingParameters.validate
  split_ifs with h1 h2 h3 h4 h5 h6 h7
  · exact iff_of_false (by simp) (by rintro ⟨a, -⟩; exact absurd a (not_lt.mpr h1))
  · exact iff_of_false (by simp) (by rintro ⟨-, a, -⟩; exact absurd a (not_lt.mpr h2))
  · exact iff_of_false (by simp) (by rintro ⟨-, -, a, -⟩; exact absurd a (not_lt.mpr h3))
  · exact iff_of_false (by simp) (by rintro ⟨-, -, -, a, -⟩; exact absurd a (not_lt.mpr h4))
  · exact iff_of_false (by simp) (by rintro ⟨-, -, -, -, a, -⟩; exact absurd a (not_lt.mpr h5))
  · exact iff_of_false (by simp) (by rintro ⟨-, -, -, -, -, a, -⟩; exact absurd a (not_lt.mpr h6))
  · exact iff_of_false (by simp) (by rintro ⟨-, -, -, -, -, -, a⟩; exact absurd h7 (not_lt.mpr a))
  · push_neg at h1 h2 h3 h4 h5 h6 h7
    exact iff_of_true rfl ⟨h1, h2, h3, h4, h5, h6, h7⟩

/-- The radicand of the trochoidal correction is strictly positive for
every width of cut that passes validation and lies in the corrected
branch. -/
theorem feedrate_radicand_pos (woc D : ℚ) (hw : 0 < woc) (hwD : woc ≤ D / 2)
    (hD : 0 < D) : 0 < 1 - (1 - 2 * woc / D) ^ 2 := by
  have hD0 : D ≠ 0 := ne_of_gt hD
  have key : 1 - (1 - 2 * woc / D) ^ 2 = 4 * woc * (D - woc) / D ^ 2 := by
    field_simp
    ring
  rw [key]
  have hwlt : woc < D := by linarith
  apply div_pos
  · nlinarith
  · positivity

/-- In the full-engagement branch the formula returns the base feedrate. -/
theorem feedrate_formula_eq_base (flutes rpm chipload woc D : ℚ)
    (h : woc > D / 2) :
    feedrate_formula flutes rpm chipload woc D
      = ((rpm * chipload * flutes : ℚ) : ℝ) := by
  simp only [feedrate_formula]
  rw [if_pos h]

/-- At exactly half engagement the radicand is 1 and the formula returns
the base feedrate. -/
theorem feedrate_formula_at_half (flutes rpm chipload woc D : ℚ)
    (hD : 0 < D) (h : woc = D / 2) :
    feedrate_formula flutes rpm chipload woc D
      = ((rpm * chipload * flutes : ℚ) : ℝ) := by
  have hD0 : D ≠ 0 := ne_of_gt hD
  subst h
  have hrad : (1 - (1 - 2 * (D / 2) / D) ^ 2 : ℚ) = 1 := by
    field_simp
  simp only [feedrate_formula]
  rw [if_neg (lt_irrefl _), hrad]
  norm_num

/-- Strictly below half engagement the correction strictly increases the
feedrate above the base feedrate. -/
theorem feedrate_formula_gt_base (flutes rpm chipload woc D : ℚ)
    (hf : 0 < flutes) (hr : 0 < rpm) (hc : 0 < chipload)
    (hw : 0 < woc) (hlt : woc < D / 2) (hD : 0 < D) :
    ((rpm * chipload * flutes : ℚ) : ℝ)
      < feedrate_formula flutes rpm chipload woc D := by
  have hbase : (0:ℝ) < ((rpm * chipload * flutes : ℚ) : ℝ) := by
    exact_mod_cast mul_pos (mul_pos hr hc) hf
  have hrad0 : (0:ℚ) < 1 - (1 - 2 * woc / D) ^ 2 :=
    feedrate_radicand_pos woc D hw (le_of_lt hlt) hD
  have hrad1 : (1 - (1 - 2 * woc / D) ^ 2 : ℚ) < 1 := by
    have hx : (0:ℚ) < 1 - 2 * woc / D := by
      rw [sub_pos, div_lt_one hD]
      linarith
    nlinarith
  have h0R : (0:ℝ) < ((1 - (1 - 2 * woc / D) ^ 2 : ℚ) : ℝ) := by exact_mod_cast hrad0
  have h1R : ((1 - (1 - 2 * woc / D) ^ 2 : ℚ) : ℝ) < 1 := by exact_mod_cast hrad1
  have hs0 : 0 < Real.sqrt ((1 - (1 - 2 * woc / D) ^ 2 : ℚ) : ℝ) :=
    Real.sqrt_pos.mpr h0R
  have hs1 : Real.sqrt ((1 - (1 - 2 * woc / D) ^ 2 : ℚ) : ℝ) < 1 := by
    have h := Real.sqrt_lt_sqrt (le_of_lt h0R) h1R
    rwa [Real.sqrt_one] at h
  simp only [feedrate_formula]
  rw [if_neg (not_lt.mpr (le_of_lt hlt))]
  rw [lt_div_iff hs0]
  exact mul_lt_of_lt_one_right hbase hs1

/-- Shared evaluation: the spec's concrete full-engagement scenario,
flutes 1, diameter 6.35, rpm 18000, woc 6.35, doc 1, chipload 0.0254. -/
theorem calculate_feedrate_full_engagement_example :
    calculate_feedrate ⟨1, 127/20, 18000, 127/20, 1, 127/5000⟩ =
      Except.ok ((18000 * (127/5000) * 1 : ℚ) : ℝ) := by
  have hval : (⟨1, 127/20, 18000, 127/20, 1, 127/5000⟩ :
      CuttingParameters).validate = none := by
    unfold CuttingParameters.validate
    norm_num
  unfold calculate_feedrate
  rw [hval]
  exact congrArg Except.ok (feedrate_formula_eq_base _ _ _ _ _ (by norm_num))

/-- C1 (counterexample): a parameter set satisfying every condition the
claim enumerates (flutes 1, diameter 6.35, rpm 18000, woc 6.35,
chipload 0.0254) but with depth_of_cut 0 is rejected by
calculate_feedrate instead of returning the claimed base feedrate. -/
theorem calculate_feedrate_claim_fails_doc :
    (1 ≤ (1:ℚ) ∧ (0:ℚ) < 127/20 ∧ (0:ℚ) < 18000 ∧ (0:ℚ) < 127/20 ∧
      (127/20 : ℚ) ≤ 127/20 ∧ (0:ℚ) < 127/5000 ∧
      ((127/20 : ℚ) > 127/20 / 2)) ∧
    calculate_feedrate ⟨1, 127/20, 18000, 127/20, 0, 127/5000⟩ ≠
      Except.ok ((18000 * (127/5000) * 1 : ℚ) : ℝ) := by
  refine ⟨by norm_num, ?_⟩
  have hval : (⟨1, 127/20, 18000, 127/20, 0, 127/5000⟩ :
      CuttingParameters).validate = some "Depth of cut must be positive" := by
    unfold CuttingParameters.validate
    norm_num
  have herr : calculate_feedrate ⟨1, 127/20, 18000, 127/20, 0, 127/5000⟩
      = Except.error "Depth of cut must be positive" := by
    unfold calculate_feedrate
    rw [hval]
  rw [herr]
  simp

/-- C1 (amended): for every parameter set with flutes at least 1, positive
tool diameter, rpm, width of cut, chipload and also positive depth of cut,
and width of cut at most the tool diameter, calculate_feedrate returns the
base feedrate rpm * chipload * flutes when woc exceeds half the diameter,
and the base divided by sqrt(1 - (1 - 2 woc / diameter)^2) otherwise. -/
theorem calculate_feedrate_formula_amended (p : CuttingParameters)
    (hf : 1 ≤ p.flutes) (hD : 0 < p.tool_diameter) (hr : 0 < p.rpm)
    (hw : 0 < p.width_of_cut) (hwD : p.width_of_cut ≤ p.tool_diameter)
    (hc : 0 < p.chipload) (hd : 0 < p.depth_of_cut) :
    calculate_feedrate p =
      Except.ok (if p.width_of_cut > p.tool_diameter / 2
        then ((p.rpm * p.chipload * p.flutes : ℚ) : ℝ)
        else ((p.rpm * p.chipload * p.flutes : ℚ) : ℝ) /
          Real.sqrt ((1 - (1 - 2 * p.width_of_cut / p.tool_diameter) ^ 2 : ℚ) : ℝ)) := by
  have hval : p.validate = none :=
    (validate_none_iff p).mpr ⟨by linarith, hD, hr, hw, hd, hc, hwD⟩
  unfold calculate_feedrate
  rw [hval]
  exact congrArg Except.ok (by simp only [feedrate_formula])

/-- Witness for C1 at the spec's concrete full-engagement scenario:
feedrate 18000 * 0.0254 * 1 = 457.2 mm/min exactly. -/
theorem calculate_feedrate_formula_amended_witness :
    calculate_feedrate ⟨1, 127/20, 18000, 127/20, 1, 127/5000⟩ =
      Except.ok ((2286/5 : ℚ) : ℝ) := by
  have h := calculate_feedrate_formula_amended
    ⟨1, 127/20, 18000, 127/20, 1, 127/5000⟩
    (by norm_num) (by norm_num) (by norm_num) (by norm_num) (by norm_num)
    (by norm_num) (by norm_num)
  rw [h]
  norm_num

/-- C2 (counterexample): at exactly half engagement (woc = diameter / 2,
here 3.175 = 6.35 / 2) the feedrate equals the base feedrate although
woc > diameter / 2 is false, so equality does not hold only when
woc > diameter / 2. -/
theorem calculate_feedrate_eq_base_boundary :
    calculate_feedrate ⟨1, 127/20, 18000, 127/40, 1, 127/5000⟩ =
      Except.ok ((18000 * (127/5000) * 1 : ℚ) : ℝ) ∧
    ¬ ((127/40 : ℚ) > (127/20 : ℚ) / 2) := by
  constructor
  · have hval : (⟨1, 127/20, 18000, 127/40, 1, 127/5000⟩ :
        CuttingParameters).validate = none := by
      unfold CuttingParameters.validate
      norm_num
    unfold calculate_feedrate
    rw [hval]
    exact congrArg Except.ok
      (feedrate_formula_at_half 1 18000 (127/5000) (127/40) (127/20)
        (by norm_num) (by norm_num))
  · norm_num

/-- C2 (amended): for every parameter set passing validation, the returned
feedrate is at least the base feedrate rpm * chipload * flutes, with
equality exactly when woc is at least half the tool diameter (the boundary
woc = diameter / 2 included). -/
theorem calculate_feedrate_ge_base_amended (p : CuttingParameters)
    (hf : 0 < p.flutes) (hD : 0 < p.tool_diameter) (hr : 0 < p.rpm)
    (hw : 0 < p.width_of_cut) (hd : 0 < p.depth_of_cut) (hc : 0 < p.chipload)
    (hwD : p.width_of_cut ≤ p.tool_diameter) (f : ℝ)
    (hok : calculate_feedrate p = Except.ok f) :
    ((p.rpm * p.chipload * p.flutes : ℚ) : ℝ) ≤ f ∧
    (f = ((p.rpm * p.chipload * p.flutes : ℚ) : ℝ) ↔
      p.tool_diameter / 2 ≤ p.width_of_cut) := by
  have hval : p.validate = none :=
    (validate_none_iff p).mpr ⟨hf, hD, hr, hw, hd, hc, hwD⟩
  have hfeq : f = feedrate_formula p.flutes p.rpm p.chipload
      p.width_of_cut p.tool_diameter := by
    unfold calculate_feedrate at hok
    rw [hval] at hok
    simpa using hok.symm
  subst hfeq
  rcases lt_trichotomy (p.tool_diameter / 2) p.width_of_cut with hgt | heq | hlt
  · rw [feedrate_formula_eq_base _ _ _ _ _ hgt]
    exact ⟨le_refl _, iff_of_true rfl (le_of_lt hgt)⟩
  · rw [feedrate_formula_at_half _ _ _ _ _ hD heq.symm]
    exact ⟨le_refl _, iff_of_true rfl (le_of_eq heq)⟩
  · have hstrict := feedrate_formula_gt_base p.flutes p.rpm p.chipload
      p.width_of_cut p.tool_diameter hf hr hc hw hlt hD
    exact ⟨le_of_lt hstrict, iff_of_false (ne_of_gt hstrict) (not_le.mpr hlt)⟩

/-- Witness for C2 at the full-engagement scenario: the feedrate equals
the base feedrate and woc is at least half the diameter. -/
theorem calculate_feedrate_ge_base_amended_witness :
    ((18000 * (127/5000) * 1 : ℚ) : ℝ) ≤ ((18000 * (127/5000) * 1 : ℚ) : ℝ) ∧
    (((18000 * (127/5000) * 1 : ℚ) : ℝ) = ((18000 * (127/5000) * 1 : ℚ) : ℝ) ↔
      (127/20 : ℚ) / 2 ≤ 127/20) :=
  calculate_feedrate_ge_base_amended ⟨1, 127/20, 18000, 127/20, 1, 127/5000⟩
    (by norm_num) (by norm_num) (by norm_num) (by norm_num) (by norm_num)
    (by norm_num) (by norm_num) _ calculate_feedrate_full_engagement_example

/-- C8: calculate_feedrate never returns a degenerate value: every
returned feedrate is a strictly positive real number (in particular the
correction's division never divides by zero, which in this exact
embedding would return 0), and every input whose width of cut has
degenerated to 0 or below is reported as a validation error instead. -/
theorem calculate_feedrate_never_nonfinite (p : CuttingParameters) :
    (∀ f : ℝ, calculate_feedrate p = Except.ok f → 0 < f) ∧
    (p.width_of_cut ≤ 0 → ∃ e, calculate_feedrate p = Except.error e) := by
  constructor
  · intro f hok
    rcases hv : p.validate with _ | e
    · obtain ⟨hf, hD, hr, hw, hd, hc, hwD⟩ := (validate_none_iff p).mp hv
      have hfeq : f = feedrate_formula p.flutes p.rpm p.chipload
          p.width_of_cut p.tool_diameter := by
        unfold calculate_feedrate at hok
        rw [hv] at hok
        simpa using hok.symm
      subst hfeq
      have hbase : (0:ℝ) < ((p.rpm * p.chipload * p.flutes : ℚ) : ℝ) := by
        exact_mod_cast mul_pos (mul_pos hr hc) hf
      by_cases hcmp : p.width_of_cut > p.tool_diameter / 2
      · rw [feedrate_formula_eq_base _ _ _ _ _ hcmp]
        exact hbase
      · push_neg at hcmp
        simp only [feedrate_formula]
        rw [if_neg (not_lt.mpr hcmp)]
        apply div_pos hbase
        apply Real.sqrt_pos.mpr
        exact_mod_cast feedrate_radicand_pos _ _ hw hcmp hD
    · exfalso
      unfold calculate_feedrate at hok
      rw [hv] at hok
      exact absurd hok (by simp)
  · intro hw0
    rcases hv : p.validate with _ | e
    · exfalso
      have hw := ((validate_none_iff p).mp hv).2.2.2.1
      linarith
    · exact ⟨e, by unfold calculate_feedrate; rw [hv]⟩

/-- Witness for C8: a concrete returned feedrate, 457.2 mm/min, is
strictly positive. -/
theorem calculate_feedrate_never_nonfinite_witness :
    calculate_feedrate ⟨1, 127/20, 18000, 127/20, 1, 127/5000⟩ =
      Except.ok ((18000 * (127/5000) * 1 : ℚ) : ℝ) ∧
    (0:ℝ) < ((18000 * (127/5000) * 1 : ℚ) : ℝ) :=
  ⟨calculate_feedrate_full_engagement_example,
   (calculate_feedrate_never_nonfinite
      ⟨1, 127/20, 18000, 127/20, 1, 127/5000⟩).1 _
     calculate_feedrate_full_engagement_example⟩

/-- Cutting style identifiers (src/data_models.py, `CuttingStyle`). -/
inductive CuttingStyle where
  | wideShallow
  | narrowDeep
deriving DecidableEq

/-- Cutting parameters of src/data_models.py (`CuttingParameters`): there
flutes and rpm are integers, and the material and cutting style accompany
the numeric fields. -/
structure DMCuttingParameters where
  flutes : ℤ
  tool_diameter : ℚ
  rpm : ℤ
  width_of_cut : ℚ
  depth_of_cut : ℚ
  chipload : ℚ
  material : Material
  cutting_style : CuttingStyle

/-- Construction of the src/data_models.py `CuttingParameters` dataclass:
`__post_init__` runs `validate`, which raises at the first non-positive
numeric field, so construction is a fallible operation returning either
the error message or the fully built value.  The checks are the source's,
in the source's order; that `validate` has no comparison of width_of_cut
against tool_diameter. -/
def mkDMCuttingParameters (flutes : ℤ) (tool_diameter : ℚ) (rpm : ℤ)
    (width_of_cut depth_of_cut chipload : ℚ) (material : Material)
    (cutting_style : CuttingStyle) : Except String DMCuttingParameters :=
  if flutes ≤ 0 then Except.error "Number of flutes must be positive"
  else if tool_diameter ≤ 0 then Except.error "Tool diameter must be positive"
  else if rpm ≤ 0 then Except.error "RPM must be positive"
  else if width_of_cut ≤ 0 then Except.error "Width of cut must be positive"
  else if depth_of_cut ≤ 0 then Except.error "Depth of cut must be positive"
  else if chipload ≤ 0 then Except.error "Chipload must be positive"
  else Except.ok ⟨flutes, tool_diameter, rpm, width_of_cut, depth_of_cut,
    chipload, material, cutting_style⟩

/-- C7 (counterexample): a parameter set whose width of cut 2 exceeds its
tool diameter 1 is nevertheless constructed successfully, so construction
does not fail on the invalid woc > tool_diameter field. -/
theorem dm_construction_accepts_woc_over_diameter :
    mkDMCuttingParameters 1 1 18000 2 1 (1/100)
        Material.softPlastics CuttingStyle.wideShallow
      = Except.ok ⟨1, 1, 18000, 2, 1, 1/100,
          Material.softPlastics, CuttingStyle.wideShallow⟩ ∧
    (2:ℚ) > 1 := by
  constructor
  · unfold mkDMCuttingParameters
    norm_num
  · norm_num

/-- C7 (amended): constructing the data_models cutting-parameters value
fails at construction time exactly when one of the six numeric fields is
non-positive; the woc ≤ tool_diameter constraint is not checked at
construction (it is enforced later, by the calculation-level
validation). -/
theorem dm_construction_fails_iff (flutes : ℤ) (D : ℚ) (rpm : ℤ)
    (woc doc chipload : ℚ) (m : Material) (cs : CuttingStyle) :
    (∃ e, mkDMCuttingParameters flutes D rpm woc doc chipload m cs
        = Except.error e) ↔
      (flutes ≤ 0 ∨ D ≤ 0 ∨ rpm ≤ 0 ∨ woc ≤ 0 ∨ doc ≤ 0 ∨ chipload ≤ 0) := by
  unfold mkDMCuttingParameters
  split_ifs with h1 h2 h3 h4 h5 h6
  · exact iff_of_true ⟨_, rfl⟩ (Or.inl h1)
  · exact iff_of_true ⟨_, rfl⟩ (Or.inr (Or.inl h2))
  · exact iff_of_true ⟨_, rfl⟩ (Or.inr (Or.inr (Or.inl h3)))
  · exact iff_of_true ⟨_, rfl⟩ (Or.inr (Or.inr (Or.inr (Or.inl h4))))
  · exact iff_of_true ⟨_, rfl⟩ (Or.inr (Or.inr (Or.inr (Or.inr (Or.inl h5)))))
  · exact iff_of_true ⟨_, rfl⟩ (Or.inr (Or.inr (Or.inr (Or.inr (Or.inr h6)))))
  · constructor
    · rintro ⟨e, he⟩
      exact absurd he (by simp)
    · rintro (h | h | h | h | h | h)
      · exact absurd h h1
      · exact absurd h h2
      · exact absurd h h3
      · exact absurd h h4
      · exact absurd h h5
      · exact absurd h h6

/-- Chipload range (src/types.py, `ChiploadRange`): a (lower, upper) pair
tagged per-flute (the default) or total. -/
structure ChiploadRange where
  lower : ℚ
  upper : ℚ
  per_flute : Bool := true
deriving DecidableEq

/-- src/types.py `ChiploadRange.to_total_chipload`: multiply both bounds
by the flute count when the range is per-flute, otherwise return it
unchanged. -/
def ChiploadRange.to_total_chipload (r : ChiploadRange) (flutes : ℤ) :
    ChiploadRange :=
  if r.per_flute then
    ⟨r.lower * (flutes : ℚ), r.upper * (flutes : ℚ), false⟩
  else r

/-- src/types.py `ChiploadRange.to_per_flute_chipload`: divide both bounds
by the flute count when the range is total, otherwise return it
unchanged. -/
def ChiploadRange.to_per_flute_chipload (r : ChiploadRange) (flutes : ℤ) :
    ChiploadRange :=
  if ¬ r.per_flute then
    ⟨r.lower / (flutes : ℚ), r.upper / (flutes : ℚ), true⟩
  else r

/-- C9: converting a per-flute chipload range to a total range and back
with the same flute count at least 1 is the identity. -/
theorem chipload_range_roundtrip (r : ChiploadRange) (flutes : ℤ)
    (hp : r.per_flute = true) (hf : 1 ≤ flutes) :
    (r.to_total_chipload flutes).to_per_flute_chipload flutes = r := by
  obtain ⟨lo, up, pf⟩ := r
  simp only at hp
  subst hp
  have hf0 : ((flutes : ℚ)) ≠ 0 := by
    have hpos : (0:ℤ) < flutes := by linarith
    exact_mod_cast ne_of_gt hpos
  unfold ChiploadRange.to_total_chipload ChiploadRange.to_per_flute_chipload
  simp [mul_div_cancel_right₀, hf0]

/-- Witness for C9 at a concrete per-flute range and flute count 2. -/
theorem chipload_range_roundtrip_witness :
    ((⟨1/20, 3/40, true⟩ : ChiploadRange).per_flute = true ∧ (1:ℤ) ≤ 2) ∧
    ((⟨1/20, 3/40, true⟩ : ChiploadRange).to_total_chipload 2).to_per_flute_chipload 2
      = (⟨1/20, 3/40, true⟩ : ChiploadRange) :=
  ⟨⟨rfl, by norm_num⟩,
   chipload_range_roundtrip ⟨1/20, 3/40, true⟩ 2 rfl (by norm_num)⟩

/-- Calculation parameters of src/event_handlers.py
(`CalculationParameters`); the material and cutting-style selections are
carried along but play no part in the feedrate search. -/
structure CalculationParameters where
  flutes : ℚ
  tool_diameter : ℚ
  rpm : ℚ
  woc : ℚ
  doc : ℚ
  chipload : ℚ
  material : Material
  cutting_style : CuttingStyle

/-- The feedrate ceiling of src/event_handlers.py, `self._feedrate_limit`
(6000 mm/min). -/
def feedrate_limit : ℚ := 6000

/-- The chipload search increment of src/event_handlers.py,
`self._chipload_increment` (0.0001 mm). -/
def chipload_increment : ℚ := 1/10000

/-- Modelled from the spec: src/event_handlers.py imports a plain function
`calculate_feedrate(flutes, rpm, chipload, woc, tool_diameter)` from the
calculations module, and that plain-function form is not among the
repository files under src/ (src/calculations.py holds only the method
form taking a parameters object).  Spec section 4.2 gives the plain
function's contract: fail naming the offending field when flutes ≤ 0,
tool_diameter ≤ 0, rpm ≤ 0, woc ≤ 0, chipload ≤ 0 or woc > tool_diameter,
and otherwise return the base feedrate rpm * chipload * flutes, corrected
by 1/sqrt(1 - (1 - 2 woc/tool_diameter)^2) when woc ≤ tool_diameter/2. -/
noncomputable def calculate_feedrate_fn
    (flutes rpm chipload woc tool_diameter : ℚ) : Except String ℝ :=
  if flutes ≤ 0 then Except.error "flutes"
  else if tool_diameter ≤ 0 then Except.error "tool_diameter"
  else if rpm ≤ 0 then Except.error "rpm"
  else if woc ≤ 0 then Except.error "woc"
  else if chipload ≤ 0 then Except.error "chipload"
  else if woc > tool_diameter then Except.error "woc exceeds tool_diameter"
  else Except.ok (feedrate_formula flutes rpm chipload woc tool_diameter)

open Classical in
/-- The while loop of src/event_handlers.py
`EventHandler._find_maximum_feedrate`, with explicit fuel: every call
checks the loop condition current ≤ upper first, so any fuel at least the
number of loop entries reproduces the source behavior, and the terminal
result (none when the best feedrate is still 0) is produced both at loop
exit and at fuel exhaustion.  The loop body computes the per-flute
chipload current/flutes, evaluates the feedrate (a propagated error
models the ValueError a failing call raises), records a strict
improvement not exceeding the limit, and breaks as soon as the limit is
exceeded. -/
noncomputable def find_max_loop (p : CalculationParameters)
    (upper limit inc : ℚ) :
    Nat → ℚ → ℝ → ℚ → Except String (Option (ℝ × ℚ))
  | 0, _, max_feedrate, max_chipload =>
      Except.ok (if max_feedrate = 0 then none
        else some (max_feedrate, max_chipload))
  | fuel + 1, current, max_feedrate, max_chipload =>
      if current ≤ upper then
        match calculate_feedrate_fn p.flutes p.rpm (current / p.flutes)
            p.woc p.tool_diameter with
        | Except.error e => Except.error e
        | Except.ok feedrate =>
            if max_feedrate < feedrate ∧ feedrate ≤ ((limit : ℚ) : ℝ) then
              find_max_loop p upper limit inc fuel (current + inc)
                feedrate current
            else if feedrate > ((limit : ℚ) : ℝ) then
              Except.ok (if max_feedrate = 0 then none
                else some (max_feedrate, max_chipload))
            else
              find_max_loop p upper limit inc fuel (current + inc)
                max_feedrate max_chipload
      else
        Except.ok (if max_feedrate = 0 then none
          else some (max_feedrate, max_chipload))

/-- src/event_handlers.py `EventHandler._find_maximum_feedrate`: scan the
total chipload from the lower to the upper bound, starting with best
feedrate 0 and best chipload equal to the lower bound.  The scan advances
by inc each entry, so ⌈(upper - lower)/inc⌉ + 1 loop entries are enough
fuel whenever inc > 0. -/
noncomputable def find_maximum_feedrate (p : CalculationParameters)
    (lower_chipload upper_chipload limit inc : ℚ) :
    Except String (Option (ℝ × ℚ)) :=
  find_max_loop p upper_chipload limit inc
    ((((upper_chipload - lower_chipload) / inc).ceil.toNat) + 1)
    lower_chipload 0 lower_chipload

/-- Loop invariant of the feedrate search: starting from any state whose
recorded best (when nonzero) sits between the starting bound and the
upper bound and does not exceed the limit, any returned best pair also
does. -/
theorem find_max_loop_sound (p : CalculationParameters)
    (upper limit inc lb : ℚ) (hinc : 0 ≤ inc) :
    ∀ (fuel : Nat) (current : ℚ) (maxF : ℝ) (maxC : ℚ),
      lb ≤ current →
      (maxF ≠ 0 → lb ≤ maxC ∧ maxC ≤ upper ∧ maxF ≤ ((limit : ℚ) : ℝ)) →
      ∀ bf bc,
        find_max_loop p upper limit inc fuel current maxF maxC
          = Except.ok (some (bf, bc)) →
        lb ≤ bc ∧ bc ≤ upper ∧ bf ≤ ((limit : ℚ) : ℝ) := by
  intro fuel
  induction fuel with
  | zero =>
      intro current maxF maxC hcur hinv bf bc h
      simp only [find_max_loop] at h
      by_cases h0 : maxF = 0
      · rw [if_pos h0] at h
        simp at h
      · rw [if_neg h0] at h
        simp only [Except.ok.injEq, Option.some.injEq, Prod.mk.injEq] at h
        obtain ⟨h1, h2⟩ := h
        subst h1
        subst h2
        exact hinv h0
  | succ n ih =>
      intro current maxF maxC hcur hinv bf bc h
      simp only [find_max_loop] at h
      by_cases hle : current ≤ upper
      · rw [if_pos hle] at h
        rcases hfn : calculate_feedrate_fn p.flutes p.rpm (current / p.flutes)
            p.woc p.tool_diameter with e | f
        · rw [hfn] at h
          simp at h
        · rw [hfn] at h
          simp only at h
          by_cases hcond : maxF < f ∧ f ≤ ((limit : ℚ) : ℝ)
          · rw [if_pos hcond] at h
            exact ih (current + inc) f current (by linarith)
              (fun _ => ⟨hcur, hle, hcond.2⟩) bf bc h
          · rw [if_neg hcond] at h
            by_cases hgt : f > ((limit : ℚ) : ℝ)
            · rw [if_pos hgt] at h
              by_cases h0 : maxF = 0
              · rw [if_pos h0] at h
                simp at h
              · rw [if_neg h0] at h
                simp only [Except.ok.injEq, Option.some.injEq,
                  Prod.mk.injEq] at h
                obtain ⟨h1, h2⟩ := h
                subst h1
                subst h2
                exact hinv h0
            · rw [if_neg hgt] at h
              exact ih (current + inc) maxF maxC (by linarith) hinv bf bc h
      · rw [if_neg hle] at h
        by_cases h0 : maxF = 0
        · rw [if_pos h0] at h
          simp at h
        · rw [if_neg h0] at h
          simp only [Except.ok.injEq, Option.some.injEq, Prod.mk.injEq] at h
          obtain ⟨h1, h2⟩ := h
          subst h1
          subst h2
          exact hinv h0

/-- C3: for total-chipload bounds lower ≤ upper, valid cutting parameters
and a positive ceiling, the feedrate maximizer is sound: any returned
best pair has its chipload within the bounds and its feedrate at most the
ceiling, and when the feedrate at the lower bound itself already exceeds
the ceiling the search reports no result. -/
theorem find_maximum_feedrate_spec (p : CalculationParameters)
    (lower upper limit : ℚ)
    (hlu : lower ≤ upper) (hlim : 0 < limit)
    (hf : 0 < p.flutes) (hD : 0 < p.tool_diameter) (hr : 0 < p.rpm)
    (hw : 0 < p.woc) (hwD : p.woc ≤ p.tool_diameter) (hd : 0 < p.doc)
    (hc : 0 < p.chipload) :
    (∀ best_feedrate best_chipload,
        find_maximum_feedrate p lower upper limit chipload_increment
          = Except.ok (some (best_feedrate, best_chipload)) →
        lower ≤ best_chipload ∧ best_chipload ≤ upper ∧
          best_feedrate ≤ ((limit : ℚ) : ℝ)) ∧
    (∀ f0 : ℝ,
        calculate_feedrate_fn p.flutes p.rpm (lower / p.flutes) p.woc
            p.tool_diameter = Except.ok f0 →
        ((limit : ℚ) : ℝ) < f0 →
        find_maximum_feedrate p lower upper limit chipload_increment
          = Except.ok none) := by
  constructor
  · intro bf bc h
    unfold find_maximum_feedrate at h
    exact find_max_loop_sound p upper limit chipload_increment lower
      (by norm_num [chipload_increment]) _ lower 0 lower (le_refl _)
      (fun h0 => absurd rfl h0) bf bc h
  · intro f0 hfn hgt
    unfold find_maximum_feedrate
    simp only [find_max_loop]
    rw [if_pos hlu]
    simp only [hfn]
    rw [if_neg (by rintro ⟨-, hb⟩; exact absurd hb (not_le.mpr hgt))]
    rw [if_pos hgt]
    simp

/-- Witness for C3 at the default scenario: tool with one flute, diameter
6.35, rpm 18000, full-width cut, and the soft-plastics total-chipload
bounds 0.05 to 0.254 with the 6000 mm/min ceiling. -/
theorem find_maximum_feedrate_spec_witness :
    ((1/20 : ℚ) ≤ 127/500 ∧ (0:ℚ) < 6000) ∧
    ((∀ best_feedrate best_chipload,
        find_maximum_feedrate
            ⟨1, 127/20, 18000, 127/20, 1, 127/5000,
              Material.softPlastics, CuttingStyle.wideShallow⟩
            (1/20) (127/500) 6000 chipload_increment
          = Except.ok (some (best_feedrate, best_chipload)) →
        (1/20 : ℚ) ≤ best_chipload ∧ best_chipload ≤ 127/500 ∧
          best_feedrate ≤ (((6000:ℚ)) : ℝ)) ∧
    (∀ f0 : ℝ,
        calculate_feedrate_fn 1 18000 ((1/20) / 1) (127/20) (127/20)
          = Except.ok f0 →
        (((6000:ℚ)) : ℝ) < f0 →
        find_maximum_feedrate
            ⟨1, 127/20, 18000, 127/20, 1, 127/5000,
              Material.softPlastics, CuttingStyle.wideShallow⟩
            (1/20) (127/500) 6000 chipload_increment
          = Except.ok none)) :=
  ⟨⟨by norm_num, by norm_num⟩,
   find_maximum_feedrate_spec
     ⟨1, 127/20, 18000, 127/20, 1, 127/5000,
       Material.softPlastics, CuttingStyle.wideShallow⟩
     (1/20) (127/500) 6000 (by norm_num) (by norm_num) (by norm_num)
     (by norm_num) (by norm_num) (by norm_num) (by norm_num) (by norm_num)
     (by norm_num)⟩

end FeedsSpeeds
